import Mathlib

/-!
Shallow embedding of the authentication and authorization core of the
blog backend (src/services/auth.service.ts and
src/middleware/auth.middleware.ts), with proofs of the specification's
claims about it.  Machine times are modelled as Nat counters; the
persisted store is explicit state passed in and out of every operation.
-/

namespace BlogBackend

/-- User roles, from `export type UserRole = 'USER' | 'EDITOR' | 'ADMIN'`
in auth.service.ts. -/
inductive UserRole where
  | USER
  | EDITOR
  | ADMIN
  deriving DecidableEq, Repr

/-- The JWT secret: the hardcoded environment fallback of auth.service.ts
(`process.env.JWT_SECRET || '...'`). -/
def JWT_SECRET : String := "your-super-secret-jwt-key-change-this-in-production"

/-- Token lifetime in seconds: the default of JWT_EXPIRES_IN, '7d'. -/
def JWT_EXPIRES_IN : Nat := 7 * 24 * 60 * 60

/-- Payload signed into a token: `interface AuthTokenPayload`. -/
structure AuthTokenPayload where
  userId : String
  email : String
  role : UserRole
  deriving DecidableEq, Repr

/-- Registered claims carried by a signed token as produced by
jsonwebtoken's sign: the payload fields plus issued-at, expiry and the
optional iss and aud registered claims. -/
structure JwtClaims where
  userId : String
  email : String
  role : UserRole
  iat : Nat
  exp : Nat
  iss : Option String
  aud : Option String
  deriving DecidableEq, Repr

/-- A structurally well-formed signed token; `signedWith` records the key
the signature was made with, so the signature check against a secret s
succeeds exactly when signedWith = s. -/
structure Token where
  claims : JwtClaims
  signedWith : String
  deriving DecidableEq, Repr

/-- Input to verification: either a string that does not decode as a JWT
at all, or a well-formed token. -/
inductive TokenInput where
  | malformed (raw : String)
  | wellFormed (t : Token)
  deriving DecidableEq, Repr

/-- Structured domain error: `class AuthError` (message, code, optional
offending field). -/
structure AuthError where
  message : String
  code : String
  field : Option String
  deriving DecidableEq, Repr

/-- The single error value verifyToken ever produces. -/
def invalidTokenError : AuthError :=
  { message := "Token无效或已过期", code := "INVALID_TOKEN", field := none }

/-- AuthService.generateToken: `jwt.sign(payload, JWT_SECRET, { expiresIn:
JWT_EXPIRES_IN })`.  sign serializes the payload with iat = now and
exp = now + lifetime; the sign options set no issuer and no audience, so
the iss and aud claims are absent from the issued token. -/
def generateToken (payload : AuthTokenPayload) (now : Nat) : Token :=
  { claims :=
      { userId := payload.userId
        email := payload.email
        role := payload.role
        iat := now
        exp := now + JWT_EXPIRES_IN
        iss := none
        aud := none }
    signedWith := JWT_SECRET }

/-- Distinct failures of jsonwebtoken's verify (JsonWebTokenError and
TokenExpiredError variants), before the service collapses them. -/
inductive JwtError where
  | malformedToken
  | invalidSignature
  | tokenExpired
  | audienceInvalid
  | issuerInvalid
  deriving DecidableEq, Repr

/-- jsonwebtoken's verify with options `{ issuer: 'blog-backend',
audience: 'blog-frontend' }`, performing its checks in source order:
decode, signature, expiry (valid strictly before exp), audience, issuer.
Returns the decoded payload on success. -/
def jwtVerify (input : TokenInput) (now : Nat) : Except JwtError AuthTokenPayload :=
  match input with
  | .malformed _ => .error .malformedToken
  | .wellFormed t =>
    if t.signedWith = JWT_SECRET then
      if now < t.claims.exp then
        if t.claims.aud = some "blog-frontend" then
          if t.claims.iss = some "blog-backend" then
            .ok { userId := t.claims.userId, email := t.claims.email, role := t.claims.role }
          else .error .issuerInvalid
        else .error .audienceInvalid
      else .error .tokenExpired
    else .error .invalidSignature

/-- AuthService.verifyToken: wraps jwt.verify in try/catch and maps every
failure to the single AuthError INVALID_TOKEN. -/
def verifyToken (input : TokenInput) (now : Nat) : Except AuthError AuthTokenPayload :=
  match jwtVerify input now with
  | .ok payload => .ok payload
  | .error _ => .error invalidTokenError

/-- Stored password credential.  Models a bcrypt hash string: the model
records the cost, the salt and the hashed password so that compare is
computable, reflecting bcrypt's contract that compare(p, hash(p', salt))
holds exactly when p = p'. -/
structure Credential where
  cost : Nat
  salt : Nat
  digestOf : String
  deriving DecidableEq, Repr

/-- Models bcryptjs.hash (external library call `bcrypt.hash(password,
12)`): cost factor 12, salt drawn from caller-supplied randomness. -/
def bcryptHash (password : String) (salt : Nat) : Credential :=
  { cost := 12, salt := salt, digestOf := password }

/-- Models bcryptjs.compare (external library): true exactly when the
plaintext matches the password the credential was derived from. -/
def bcryptCompare (password : String) (cred : Credential) : Bool :=
  password == cred.digestOf

/-- AuthService.hashPassword. -/
def hashPassword (password : String) (salt : Nat) : Credential :=
  bcryptHash password salt

/-- AuthService.verifyPassword. -/
def verifyPassword (password : String) (hash : Credential) : Bool :=
  bcryptCompare password hash

/-- Account record (the Prisma User model).  Fields follow the spec's
data model and the fields the source reads and writes. -/
structure User where
  id : String
  email : String
  username : String
  displayName : String
  passwordHash : Credential
  role : UserRole
  bio : Option String
  avatar : Option String
  isVerified : Bool
  lastLoginAt : Option Nat
  createdAt : Nat
  updatedAt : Nat
  deriving DecidableEq, Repr

/-- The shape `Omit<User, 'passwordHash'>` returned across the component
boundary: every User field except the credential. -/
structure PublicUser where
  id : String
  email : String
  username : String
  displayName : String
  role : UserRole
  bio : Option String
  avatar : Option String
  isVerified : Bool
  lastLoginAt : Option Nat
  createdAt : Nat
  updatedAt : Nat
  deriving DecidableEq, Repr

/-- AuthService.excludePassword: `const { passwordHash, ...rest } = user`;
keeps every field except passwordHash. -/
def excludePassword (u : User) : PublicUser :=
  { id := u.id, email := u.email, username := u.username,
    displayName := u.displayName, role := u.role, bio := u.bio,
    avatar := u.avatar, isVerified := u.isVerified,
    lastLoginAt := u.lastLoginAt, createdAt := u.createdAt,
    updatedAt := u.updatedAt }

/-- The persisted account store as visible to this core (prisma.user). -/
abbrev Db := List User

/-- prisma.user.findUnique({ where: { email } }). -/
def findByEmail (db : Db) (email : String) : Option User :=
  db.find? (fun u => u.email == email)

/-- prisma.user.findUnique({ where: { username } }). -/
def findByUsername (db : Db) (username : String) : Option User :=
  db.find? (fun u => u.username == username)

/-- prisma.user.findUnique({ where: { id } }). -/
def findById (db : Db) (id : String) : Option User :=
  db.find? (fun u => u.id == id)

/-- Rewrite the unique record keyed by id with f, returning the updated
record and the new store; none when no record matches. -/
def updateById (db : Db) (id : String) (f : User → User) : Option (User × Db) :=
  match db with
  | [] => none
  | u :: rest =>
    if u.id == id then
      some (f u, f u :: rest)
    else
      match updateById rest id f with
      | none => none
      | some (v, rest') => some (v, u :: rest')

/-- prisma.user.update keyed by id (none models the thrown P2025 when the
record is missing).  Modelled from the spec: the Prisma schema
(prisma/schema.prisma, not under src/) gives the User model an
updated-at column auto-stamped on every update ("Every persisted-state
mutation stamps an updated-at timestamp"), so every rewrite also sets
updatedAt to the current time. -/
def prismaUserUpdate (db : Db) (id : String) (f : User → User) (now : Nat) :
    Option (User × Db) :=
  updateById db id (fun u => { f u with updatedAt := now })

/-- One zod validation issue: offending field path and message. -/
structure ZodIssue where
  path : String
  message : String
  deriving DecidableEq, Repr

/-- Split a character list at occurrences of the at-sign. -/
def splitAtSign (cs : List Char) : List (List Char) :=
  match cs with
  | [] => [[]]
  | c :: rest =>
    let r := splitAtSign rest
    if c = '@' then [] :: r
    else
      match r with
      | [] => [[c]]
      | hd :: tl => (c :: hd) :: tl

/-- Models zod's z.string().email() validation (external zod library, not
repository code): a nonempty local part and a nonempty domain separated
by a single at-sign. -/
def isEmailFormat (s : String) : Bool :=
  match splitAtSign s.toList with
  | [lp, dom] => !lp.isEmpty && !dom.isEmpty
  | _ => false

/-- Models zod's z.string().url() validation (external zod library): the
string parses as an absolute http or https URL. -/
def isUrlFormat (s : String) : Bool :=
  s.startsWith "http://" || s.startsWith "https://"

/-- The character class of registerSchema's username regex
`/^[a-zA-Z0-9_]+$/`. -/
def isUsernameChar (c : Char) : Bool :=
  c.isAlphanum || c == '_'

/-- register's input shape (type RegisterData). -/
structure RegisterData where
  email : String
  username : String
  displayName : String
  password : String
  agreeToTerms : Bool
  deriving DecidableEq, Repr

/-- login's input shape (type LoginData). -/
structure LoginData where
  email : String
  password : String
  rememberMe : Option Bool
  deriving DecidableEq, Repr

/-- updateProfile's input shape (type UpdateProfileData): all three
fields optional; an absent field is not written. -/
structure UpdateProfileData where
  displayName : Option String
  bio : Option String
  avatar : Option String
  deriving DecidableEq, Repr

/-- changePassword's input shape (type ChangePasswordData). -/
structure ChangePasswordData where
  oldPassword : String
  newPassword : String
  deriving DecidableEq, Repr

/-- Issues raised by registerSchema, one per failed check, in shape-key
order: email format; username length 3..20 and character class;
displayName length 2..50; password length 6..100; agreeToTerms refined
to be exactly true. -/
def registerIssues (d : RegisterData) : List ZodIssue :=
  (if isEmailFormat d.email then [] else [{ path := "email", message := "请输入有效的邮箱地址" }]) ++
  (if d.username.length < 3 then [{ path := "username", message := "用户名至少需要3个字符" }] else []) ++
  (if d.username.length > 20 then [{ path := "username", message := "用户名不能超过20个字符" }] else []) ++
  (if d.username.toList.all isUsernameChar then [] else [{ path := "username", message := "用户名只能包含字母、数字和下划线" }]) ++
  (if d.displayName.length < 2 then [{ path := "displayName", message := "显示名称至少需要2个字符" }] else []) ++
  (if d.displayName.length > 50 then [{ path := "displayName", message := "显示名称不能超过50个字符" }] else []) ++
  (if d.password.length < 6 then [{ path := "password", message := "密码至少需要6个字符" }] else []) ++
  (if d.password.length > 100 then [{ path := "password", message := "密码不能超过100个字符" }] else []) ++
  (if d.agreeToTerms then [] else [{ path := "agreeToTerms", message := "请同意用户协议" }])

/-- registerSchema.parse: throws a ZodError carrying the issues when any
check fails, otherwise returns the validated data. -/
def registerParse (d : RegisterData) : Except (List ZodIssue) RegisterData :=
  match registerIssues d with
  | [] => .ok d
  | issues => .error issues

/-- Issues raised by loginSchema: email format and nonempty password;
rememberMe is an optional boolean with no further constraint. -/
def loginIssues (d : LoginData) : List ZodIssue :=
  (if isEmailFormat d.email then [] else [{ path := "email", message := "请输入有效的邮箱地址" }]) ++
  (if d.password.length < 1 then [{ path := "password", message := "请输入密码" }] else [])

/-- loginSchema.parse. -/
def loginParse (d : LoginData) : Except (List ZodIssue) LoginData :=
  match loginIssues d with
  | [] => .ok d
  | issues => .error issues

/-- Issues raised by updateProfileSchema: each supplied field is checked,
an absent field raises nothing; avatar admits a URL or the empty
literal. -/
def updateProfileIssues (d : UpdateProfileData) : List ZodIssue :=
  (match d.displayName with
   | none => []
   | some s =>
     (if s.length < 2 then [{ path := "displayName", message := "显示名称至少需要2个字符" }] else []) ++
     (if s.length > 50 then [{ path := "displayName", message := "显示名称不能超过50个字符" }] else [])) ++
  (match d.bio with
   | none => []
   | some s => if s.length > 500 then [{ path := "bio", message := "个人简介不能超过500个字符" }] else []) ++
  (match d.avatar with
   | none => []
   | some s => if isUrlFormat s || s == "" then [] else [{ path := "avatar", message := "请输入有效的头像URL" }])

/-- updateProfileSchema.parse. -/
def updateProfileParse (d : UpdateProfileData) : Except (List ZodIssue) UpdateProfileData :=
  match updateProfileIssues d with
  | [] => .ok d
  | issues => .error issues

/-- Issues raised by changePasswordSchema: nonempty old password, new
password of length 6..100. -/
def changePasswordIssues (d : ChangePasswordData) : List ZodIssue :=
  (if d.oldPassword.length < 1 then [{ path := "oldPassword", message := "请输入当前密码" }] else []) ++
  (if d.newPassword.length < 6 then [{ path := "newPassword", message := "新密码至少需要6个字符" }] else []) ++
  (if d.newPassword.length > 100 then [{ path := "newPassword", message := "新密码不能超过100个字符" }] else [])

/-- changePasswordSchema.parse. -/
def changePasswordParse (d : ChangePasswordData) : Except (List ZodIssue) ChangePasswordData :=
  match changePasswordIssues d with
  | [] => .ok d
  | issues => .error issues

instance {e : Type} {a : Type} [DecidableEq e] [DecidableEq a] :
    DecidableEq (Except e a) := fun x y =>
  match x, y with
  | .ok v, .ok w =>
    match decEq v w with
    | .isTrue h => .isTrue (by rw [h])
    | .isFalse h => .isFalse (fun hh => h (by injection hh))
  | .error v, .error w =>
    match decEq v w with
    | .isTrue h => .isTrue (by rw [h])
    | .isFalse h => .isFalse (fun hh => h (by injection hh))
  | .ok _, .error _ => .isFalse (fun hh => by injection hh)
  | .error _, .ok _ => .isFalse (fun hh => by injection hh)

/-- What a service operation can signal: a thrown ZodError from schema
parsing, a thrown AuthError, or an unexpected infrastructure failure
propagated opaquely (a prisma update on a vanished record). -/
inductive ServiceError where
  | validation (issues : List ZodIssue)
  | auth (e : AuthError)
  | infra (message : String)
  deriving DecidableEq, Repr

/-- Success shape of register and login: `interface AuthResult`. -/
structure AuthResult where
  user : PublicUser
  token : Token
  deriving DecidableEq, Repr

/-- The uniform login failure: AuthError('邮箱或密码错误',
'INVALID_CREDENTIALS'), thrown both for an unknown email and for a wrong
password, with no field. -/
def invalidCredentialsError : AuthError :=
  { message := "邮箱或密码错误", code := "INVALID_CREDENTIALS", field := none }

/-- The record prisma.user.create persists for register: the validated
email, username, displayName, the hashed password, and role USER.
Modelled from the spec: the remaining column defaults (no bio, no
avatar, unverified, no last login, created/updated stamped now) come
from the Prisma schema, which is not under src/; the spec's data model
lists these fields with registration as the creating lifecycle step. -/
def createdUser (v : RegisterData) (newId : String) (salt : Nat) (now : Nat) : User :=
  { id := newId
    email := v.email
    username := v.username
    displayName := v.displayName
    passwordHash := hashPassword v.password salt
    role := .USER
    bio := none
    avatar := none
    isVerified := false
    lastLoginAt := none
    createdAt := now
    updatedAt := now }

/-- AuthService.register.  newId stands for the store-generated record
id, salt for bcrypt's randomness, now for the clock.  Validates, checks
email uniqueness then username uniqueness, hashes the password, creates
the record, issues a token, and returns the account with the credential
stripped.  The second component is the store after the call; every
failure leaves it unchanged.  Modelled from the spec: the created
record's column defaults (no bio, no avatar, unverified, no last login,
created/updated stamped now) come from the Prisma schema, which is not
under src/; the spec's data model lists these fields with registration
as the creating lifecycle step. -/
def register (db : Db) (data : RegisterData) (newId : String) (salt : Nat)
    (now : Nat) : Except ServiceError AuthResult × Db :=
  match registerParse data with
  | .error issues => (.error (.validation issues), db)
  | .ok v =>
    match findByEmail db v.email with
    | some _ =>
      (.error (.auth { message := "该邮箱已被注册", code := "EMAIL_EXISTS", field := some "email" }), db)
    | none =>
      match findByUsername db v.username with
      | some _ =>
        (.error (.auth { message := "该用户名已被使用", code := "USERNAME_EXISTS", field := some "username" }), db)
      | none =>
        let user : User := createdUser v newId salt now
        let token := generateToken { userId := user.id, email := user.email, role := user.role } now
        (.ok { user := excludePassword user, token := token }, db ++ [user])

/-- AuthService.login.  Validates, looks the account up by email, fails
INVALID_CREDENTIALS when no account exists, verifies the password
against the stored credential, fails the same INVALID_CREDENTIALS when
it does not match, then stamps the last-login time and issues a token.
Returns the updated account with the credential stripped. -/
def login (db : Db) (data : LoginData) (now : Nat) :
    Except ServiceError AuthResult × Db :=
  match loginParse data with
  | .error issues => (.error (.validation issues), db)
  | .ok v =>
    match findByEmail db v.email with
    | none => (.error (.auth invalidCredentialsError), db)
    | some user =>
      if verifyPassword v.password user.passwordHash then
        match prismaUserUpdate db user.id (fun u => { u with lastLoginAt := some now }) now with
        | none => (.error (.infra "record to update not found"), db)
        | some (updatedUser, db') =>
          let token := generateToken { userId := user.id, email := user.email, role := user.role } now
          (.ok { user := excludePassword updatedUser, token := token }, db')
      else
        (.error (.auth invalidCredentialsError), db)

/-- AuthService.getCurrentUser: fails USER_NOT_FOUND when the id no
longer resolves, otherwise returns the account with the credential
stripped.  Reads only, so the store is not returned. -/
def getCurrentUser (db : Db) (userId : String) : Except ServiceError PublicUser :=
  match findById db userId with
  | none => .error (.auth { message := "用户不存在", code := "USER_NOT_FOUND", field := none })
  | some u => .ok (excludePassword u)

/-- The update data updateProfile spreads into prisma.user.update: each
supplied field overwrites, each absent field is skipped, and updatedAt
is set explicitly. -/
def applyProfileUpdate (v : UpdateProfileData) (now : Nat) (u : User) : User :=
  { u with
    displayName := match v.displayName with | some s => s | none => u.displayName
    bio := match v.bio with | some s => some s | none => u.bio
    avatar := match v.avatar with | some s => some s | none => u.avatar
    updatedAt := now }

/-- AuthService.updateProfile: validates, then rewrites the record with
the supplied fields and an explicit updatedAt, returning it with the
credential stripped. -/
def updateProfile (db : Db) (userId : String) (data : UpdateProfileData)
    (now : Nat) : Except ServiceError PublicUser × Db :=
  match updateProfileParse data with
  | .error issues => (.error (.validation issues), db)
  | .ok v =>
    match prismaUserUpdate db userId (applyProfileUpdate v now) now with
    | none => (.error (.infra "record to update not found"), db)
    | some (updatedUser, db') => (.ok (excludePassword updatedUser), db')

/-- AuthService.changePassword: validates, fails USER_NOT_FOUND when the
account vanished, fails INVALID_PASSWORD when the old password does not
verify, otherwise re-hashes and persists the new password with an
explicit updatedAt. -/
def changePassword (db : Db) (userId : String) (data : ChangePasswordData)
    (salt : Nat) (now : Nat) : Except ServiceError Unit × Db :=
  match changePasswordParse data with
  | .error issues => (.error (.validation issues), db)
  | .ok v =>
    match findById db userId with
    | none => (.error (.auth { message := "用户不存在", code := "USER_NOT_FOUND", field := none }), db)
    | some user =>
      if verifyPassword v.oldPassword user.passwordHash then
        match prismaUserUpdate db userId
            (fun u => { u with passwordHash := hashPassword v.newPassword salt }) now with
        | none => (.error (.infra "record to update not found"), db)
        | some (_, db') => (.ok (), db')
      else
        (.error (.auth { message := "当前密码错误", code := "INVALID_PASSWORD", field := none }), db)

/-- Call Identity attached to the request after verification (req.user). -/
structure CallIdentity where
  userId : String
  email : String
  role : UserRole
  deriving DecidableEq, Repr

/-- An Authorization header value: a bearer header carries a token (the
string after the seven characters of the Bearer marker, serialization
kept abstract); any other header string does not start with the marker
and yields no token. -/
inductive HeaderValue where
  | bearer (tok : TokenInput)
  | nonBearer (s : String)
  deriving DecidableEq, Repr

/-- The token extraction of auth.middleware.ts: `authHeader &&
authHeader.startsWith('Bearer ') ? authHeader.slice(7) : null`. -/
def extractToken : Option HeaderValue → Option TokenInput
  | some (.bearer tok) => some tok
  | _ => none

/-- A middleware's outcome: an error response sent with a status and
error body, or a pass to next() with req.user attached or not. -/
inductive MwResult where
  | respond (status : Nat) (code : String) (message : String)
  | next (identity : Option CallIdentity)
  deriving DecidableEq, Repr

/-- authenticateToken (mandatory mode): no extracted token responds 401
NO_TOKEN; a token failing verification responds 401 with the caught
AuthError's code and message; on success req.user is attached and the
call proceeds. -/
def authenticateToken (header : Option HeaderValue) (now : Nat) : MwResult :=
  match extractToken header with
  | none => .respond 401 "NO_TOKEN" "请提供认证token"
  | some tok =>
    match verifyToken tok now with
    | .ok p => .next (some { userId := p.userId, email := p.email, role := p.role })
    | .error e => .respond 401 e.code e.message

/-- optionalAuth: extraction as in mandatory mode, but a verification
failure is swallowed and the call proceeds without an identity. -/
def optionalAuth (header : Option HeaderValue) (now : Nat) : MwResult :=
  match extractToken header with
  | none => .next none
  | some tok =>
    match verifyToken tok now with
    | .ok p => .next (some { userId := p.userId, email := p.email, role := p.role })
    | .error _ => .next none

/-- requireRole: responds 401 NOT_AUTHENTICATED when no identity is
attached, 403 INSUFFICIENT_PERMISSIONS when the attached identity's role
is outside the required set, and proceeds otherwise. -/
def requireRole (roles : List UserRole) (identity : Option CallIdentity) : MwResult :=
  match identity with
  | none => .respond 401 "NOT_AUTHENTICATED" "请先登录"
  | some u =>
    if roles.contains u.role then .next (some u)
    else .respond 403 "INSUFFICIENT_PERMISSIONS" "权限不足"

/-- requireAdmin = requireRole(['ADMIN']). -/
def requireAdmin (identity : Option CallIdentity) : MwResult :=
  requireRole [.ADMIN] identity

/-- requireEditor = requireRole(['EDITOR', 'ADMIN']). -/
def requireEditor (identity : Option CallIdentity) : MwResult :=
  requireRole [.EDITOR, .ADMIN] identity

/-! Helper lemmas about the store primitives. -/

theorem findById_cons (x : User) (rest : Db) (id : String) :
    findById (x :: rest) id = if x.id == id then some x else findById rest id := by
  cases h : x.id == id <;> simp [findById, List.find?, h]

theorem findByEmail_cons (x : User) (rest : Db) (e : String) :
    findByEmail (x :: rest) e = if x.email == e then some x else findByEmail rest e := by
  cases h : x.email == e <;> simp [findByEmail, List.find?, h]

theorem updateById_some {db : Db} {id : String} {f : User → User} {u' : User}
    {db' : Db} (h : updateById db id f = some (u', db')) :
    ∃ u, findById db id = some u ∧ u' = f u ∧ u' ∈ db' := by
  induction db generalizing db' with
  | nil => simp [updateById] at h
  | cons x rest ih =>
    unfold updateById at h
    by_cases hx : (x.id == id) = true
    · rw [if_pos hx] at h
      simp only [Option.some.injEq, Prod.mk.injEq] at h
      obtain ⟨h1, h2⟩ := h
      refine ⟨x, ?_, h1.symm, ?_⟩
      · simp [findById, List.find?_cons_of_pos, hx]
      · rw [← h2, ← h1]
        exact List.mem_cons_self _ _
    · rw [if_neg hx] at h
      cases hrec : updateById rest id f with
      | none => rw [hrec] at h; simp at h
      | some p =>
        obtain ⟨v, rest'⟩ := p
        rw [hrec] at h
        simp only [Option.some.injEq, Prod.mk.injEq] at h
        obtain ⟨h1, h2⟩ := h
        obtain ⟨u, hu1, hu2, hu3⟩ := ih (h1 ▸ hrec)
        refine ⟨u, ?_, hu2, ?_⟩
        · simpa [findById, List.find?_cons_of_neg, hx] using hu1
        · rw [← h2]
          exact List.mem_cons_of_mem _ hu3

theorem findById_some {db : Db} {id : String} {u : User}
    (h : findById db id = some u) : (u.id == id) = true := by
  unfold findById at h
  have h2 := List.find?_some h
  simpa using h2

theorem findByEmail_some {db : Db} {e : String} {u : User}
    (h : findByEmail db e = some u) : (u.email == e) = true := by
  unfold findByEmail at h
  have h2 := List.find?_some h
  simpa using h2

theorem findById_mem {db : Db} {id : String} {u : User}
    (h : findById db id = some u) : u ∈ db := by
  unfold findById at h
  exact List.mem_of_find?_eq_some h

theorem updateById_of_findById {db : Db} {id : String} {u : User}
    (f : User → User) (h : findById db id = some u) :
    ∃ db', updateById db id f = some (f u, db') := by
  induction db with
  | nil => simp [findById] at h
  | cons x rest ih =>
    by_cases hx : (x.id == id) = true
    · rw [findById_cons, if_pos hx] at h
      have hxu : x = u := by injection h
      subst hxu
      refine ⟨f x :: rest, ?_⟩
      simp only [updateById]
      rw [if_pos hx]
    · rw [findById_cons, if_neg hx] at h
      obtain ⟨rest', hrest⟩ := ih h
      refine ⟨x :: rest', ?_⟩
      simp only [updateById]
      rw [if_neg hx, hrest]

theorem findByEmail_updateById {db : Db} {id e : String} {u u' : User} {db' : Db}
    {f : User → User} (hid : findById db id = some u)
    (hem : findByEmail db e = some u) (hupd : updateById db id f = some (u', db'))
    (hpres : (f u).email = u.email) : findByEmail db' e = some u' := by
  induction db generalizing db' with
  | nil => simp [findById] at hid
  | cons x rest ih =>
    unfold updateById at hupd
    by_cases hx : (x.id == id) = true
    · rw [findById_cons, if_pos hx] at hid
      have hxu : x = u := by injection hid
      rw [if_pos hx] at hupd
      simp only [Option.some.injEq, Prod.mk.injEq] at hupd
      obtain ⟨h1, h2⟩ := hupd
      have hue : (u.email == e) = true := by
        by_cases hxe : (x.email == e) = true
        · rw [← hxu]; exact hxe
        · rw [findByEmail_cons, if_neg hxe] at hem
          exact findByEmail_some hem
      rw [← h2, ← h1, findByEmail_cons,
        if_pos (show ((f x).email == e) = true by rw [hxu, hpres]; exact hue)]
    · rw [findById_cons, if_neg hx] at hid
      rw [if_neg hx] at hupd
      cases hrec : updateById rest id f with
      | none => rw [hrec] at hupd; simp at hupd
      | some p =>
        obtain ⟨v, rest'⟩ := p
        rw [hrec] at hupd
        simp only [Option.some.injEq, Prod.mk.injEq] at hupd
        obtain ⟨h1, h2⟩ := hupd
        have hxe : ¬ (x.email == e) = true := by
          intro hxe
          rw [findByEmail_cons, if_pos hxe] at hem
          have hxu : x = u := by injection hem
          have hbid : (u.id == id) = true := findById_some hid
          rw [← hxu] at hbid
          exact hx hbid
        rw [findByEmail_cons, if_neg hxe] at hem
        rw [h1] at hrec
        rw [← h2, findByEmail_cons, if_neg hxe]
        exact ih hid hem hrec

/-- A concrete stored account used to instantiate the claim theorems. -/
def aliceUser : User :=
  { id := "u1"
    email := "a@x.com"
    username := "alice"
    displayName := "Alice"
    passwordHash := bcryptHash "secret1" 0
    role := .USER
    bio := none
    avatar := none
    isVerified := false
    lastLoginAt := none
    createdAt := 0
    updatedAt := 0 }

/-! Claim theorems. -/

/-- C1: the claim states that a token produced by issue carries issuer
"blog-backend" and audience "blog-frontend" and that verify applied to
issue(payload) succeeds within the validity window.  On the code this
fails: generateToken signs with no issuer and no audience claim while
verifyToken demands both, so verification of every issued token fails
with INVALID_TOKEN at every verification time — inside the validity
window included. -/
theorem C1_verify_of_issue_always_fails (payload : AuthTokenPayload)
    (issueTime checkTime : Nat) :
    verifyToken (.wellFormed (generateToken payload issueTime)) checkTime =
      .error invalidTokenError := by
  simp only [verifyToken, jwtVerify, generateToken]
  by_cases h : checkTime < issueTime + JWT_EXPIRES_IN <;> simp [h]

/-- C5: every failure of verifyToken — malformed input, bad signature,
expired token, wrong audience or wrong issuer — produces the single
error INVALID_TOKEN, and verifyToken returns the token's payload exactly
when every check passes. -/
theorem C5_verify_single_error_kind (input : TokenInput) (now : Nat) :
    ((∃ p, verifyToken input now = .ok p) ∨
      verifyToken input now = .error invalidTokenError) ∧
    (∀ p, verifyToken input now = .ok p ↔
      ∃ t, input = .wellFormed t ∧ t.signedWith = JWT_SECRET ∧
        now < t.claims.exp ∧ t.claims.aud = some "blog-frontend" ∧
        t.claims.iss = some "blog-backend" ∧
        p = { userId := t.claims.userId, email := t.claims.email,
              role := t.claims.role }) := by
  constructor
  · cases hv : jwtVerify input now with
    | ok p => exact Or.inl ⟨p, by simp [verifyToken, hv]⟩
    | error e => exact Or.inr (by simp [verifyToken, hv])
  · intro p
    constructor
    · intro h
      cases input with
      | malformed raw => simp [verifyToken, jwtVerify] at h
      | wellFormed t =>
        refine ⟨t, rfl, ?_⟩
        simp only [verifyToken, jwtVerify] at h
        by_cases h1 : t.signedWith = JWT_SECRET
        · by_cases h2 : now < t.claims.exp
          · by_cases h3 : t.claims.aud = some "blog-frontend"
            · by_cases h4 : t.claims.iss = some "blog-backend"
              · refine ⟨h1, h2, h3, h4, ?_⟩
                rw [if_pos h1, if_pos h2, if_pos h3, if_pos h4] at h
                injection h with h5
                exact h5.symm
              · rw [if_pos h1, if_pos h2, if_pos h3, if_neg h4] at h
                exact absurd h (by simp)
            · rw [if_pos h1, if_pos h2, if_neg h3] at h
              exact absurd h (by simp)
          · rw [if_pos h1, if_neg h2] at h
            exact absurd h (by simp)
        · rw [if_neg h1] at h
          exact absurd h (by simp)
    · rintro ⟨t, rfl, h1, h2, h3, h4, rfl⟩
      simp [verifyToken, jwtVerify, h1, h2, h3, h4]

/-- Witness for C5 at a concrete input: a malformed token string fails
with INVALID_TOKEN. -/
theorem C5_verify_single_error_kind_witness :
    (∃ p, verifyToken (.malformed "not-a-jwt") 0 = .ok p) ∨
      verifyToken (.malformed "not-a-jwt") 0 = .error invalidTokenError :=
  (C5_verify_single_error_kind (.malformed "not-a-jwt") 0).1


/-- C2: every successful return of register, login, getCurrentUser and
updateProfile carries no credential: the returned account value is
excludePassword of a record of the resulting store, a shape from which
the password-hash field is absent. -/
theorem C2_credential_stripped :
    (∀ db data newId salt now r db₁,
      register db data newId salt now = (.ok r, db₁) →
        ∃ u, u ∈ db₁ ∧ r.user = excludePassword u) ∧
    (∀ db data now r db₂, login db data now = (.ok r, db₂) →
        ∃ u, u ∈ db₂ ∧ r.user = excludePassword u) ∧
    (∀ db userId pu, getCurrentUser db userId = .ok pu →
        ∃ u, u ∈ db ∧ pu = excludePassword u) ∧
    (∀ db userId data now pu db₃, updateProfile db userId data now = (.ok pu, db₃) →
        ∃ u, u ∈ db₃ ∧ pu = excludePassword u) := by
  refine ⟨?_, ?_, ?_, ?_⟩
  · intro db data newId salt now r db₁ h
    unfold register at h
    split at h
    · simp at h
    · split at h
      · simp at h
      · split at h
        · simp at h
        · simp only [Prod.mk.injEq, Except.ok.injEq] at h
          obtain ⟨h1, h2⟩ := h
          exact ⟨_, by rw [← h2]; exact List.mem_append_right _ (List.mem_singleton.mpr rfl),
            by rw [← h1]⟩
  · intro db data now r db₂ h
    unfold login at h
    split at h
    · simp at h
    · split at h
      · simp at h
      · split at h
        · split at h
          · simp at h
          · rename_i uu db' hupd
            simp only [Prod.mk.injEq, Except.ok.injEq] at h
            obtain ⟨h1, h2⟩ := h
            obtain ⟨u0, hf, hfu, hmem⟩ := updateById_some hupd
            exact ⟨uu, h2 ▸ hmem, by rw [← h1]⟩
        · simp at h
  · intro db userId pu h
    unfold getCurrentUser at h
    split at h
    · simp at h
    · rename_i u hf
      injection h with h1
      exact ⟨u, findById_mem hf, h1.symm⟩
  · intro db userId data now pu db₃ h
    unfold updateProfile at h
    split at h
    · simp at h
    · split at h
      · simp at h
      · rename_i uu db' hupd
        simp only [Prod.mk.injEq, Except.ok.injEq] at h
        obtain ⟨h1, h2⟩ := h
        obtain ⟨u0, hf, hfu, hmem⟩ := updateById_some hupd
        exact ⟨uu, h2 ▸ hmem, h1.symm⟩

/-- C3: with well-formed login input, a login whose email is unknown to
the store and a login whose email resolves but whose password does not
verify against the stored credential fail with literally the same error
value — code INVALID_CREDENTIALS, message 邮箱或密码错误, no field —
leaving the store unchanged, so the two failure causes are
indistinguishable to the caller. -/
theorem C3_login_failures_indistinguishable (db : Db) (data : LoginData)
    (now : Nat) (hparse : loginParse data = .ok data) :
    (findByEmail db data.email = none →
      login db data now = (.error (.auth invalidCredentialsError), db)) ∧
    (∀ u, findByEmail db data.email = some u →
      verifyPassword data.password u.passwordHash = false →
      login db data now = (.error (.auth invalidCredentialsError), db)) := by
  constructor
  · intro he
    simp only [login, hparse, he]
  · intro u he hpw
    simp only [login, hparse, he, hpw]
    simp

/-- Witness for C3: against a store holding only alice, a login with an
unknown email and a login with alice's email but a wrong password both
return exactly the INVALID_CREDENTIALS error. -/
theorem C3_login_failures_indistinguishable_witness :
    login [aliceUser] { email := "b@x.com", password := "whatever", rememberMe := none } 5 =
      (.error (.auth invalidCredentialsError), [aliceUser]) ∧
    login [aliceUser] { email := "a@x.com", password := "wrong", rememberMe := none } 5 =
      (.error (.auth invalidCredentialsError), [aliceUser]) :=
  ⟨(C3_login_failures_indistinguishable [aliceUser]
      { email := "b@x.com", password := "whatever", rememberMe := none } 5 rfl).1 rfl,
   (C3_login_failures_indistinguishable [aliceUser]
      { email := "a@x.com", password := "wrong", rememberMe := none } 5 rfl).2
      aliceUser rfl rfl⟩

/-- C4: every mutating operation stamps the updated-at timestamp on the
record it rewrites as part of the write: on success, login leaves the
last-login-stamped record with updatedAt = now, and updateProfile and
changePassword leave the rewritten record with updatedAt = now in the
resulting store. -/
theorem C4_mutations_stamp_updatedAt :
    (∀ db data now r db₁, login db data now = (.ok r, db₁) →
      ∃ u, u ∈ db₁ ∧ u.updatedAt = now ∧ u.lastLoginAt = some now ∧
        r.user = excludePassword u) ∧
    (∀ db userId data now pu db₂, updateProfile db userId data now = (.ok pu, db₂) →
      ∃ u, u ∈ db₂ ∧ u.updatedAt = now ∧ pu = excludePassword u) ∧
    (∀ db userId data salt now db₃,
      changePassword db userId data salt now = (.ok (), db₃) →
      ∃ u, u ∈ db₃ ∧ u.updatedAt = now ∧ u.id = userId) := by
  refine ⟨?_, ?_, ?_⟩
  · intro db data now r db₁ h
    unfold login at h
    split at h
    · simp at h
    · split at h
      · simp at h
      · split at h
        · split at h
          · simp at h
          · rename_i uu db' hupd
            simp only [Prod.mk.injEq, Except.ok.injEq] at h
            obtain ⟨h1, h2⟩ := h
            obtain ⟨u0, hf, hfu, hmem⟩ := updateById_some hupd
            exact ⟨uu, h2 ▸ hmem, by rw [hfu], by rw [hfu], by rw [← h1]⟩
        · simp at h
  · intro db userId data now pu db₂ h
    unfold updateProfile at h
    split at h
    · simp at h
    · split at h
      · simp at h
      · rename_i uu db' hupd
        simp only [Prod.mk.injEq, Except.ok.injEq] at h
        obtain ⟨h1, h2⟩ := h
        obtain ⟨u0, hf, hfu, hmem⟩ := updateById_some hupd
        exact ⟨uu, h2 ▸ hmem, by rw [hfu], h1.symm⟩
  · intro db userId data salt now db₃ h
    unfold changePassword at h
    split at h
    · simp at h
    · split at h
      · simp at h
      · split at h
        · split at h
          · simp at h
          · rename_i uu db' hupd
            simp only [Prod.mk.injEq] at h
            obtain ⟨h1, h2⟩ := h
            obtain ⟨u0, hf, hfu, hmem⟩ := updateById_some hupd
            refine ⟨uu, h2 ▸ hmem, by rw [hfu], ?_⟩
            have hbid : u0.id = userId := eq_of_beq (findById_some hf)
            rw [hfu]
            exact hbid
        · simp at h

/-- Witness for C4 at a concrete input: a successful profile update on
alice leaves a record stamped with the update time. -/
theorem C4_mutations_stamp_updatedAt_witness :
    ∃ u, u ∈ ((updateProfile [aliceUser] "u1"
        { displayName := some "Alice B", bio := none, avatar := none } 9).2) ∧
      u.updatedAt = 9 ∧
      (excludePassword { aliceUser with displayName := "Alice B", updatedAt := 9 }) =
        excludePassword u :=
  C4_mutations_stamp_updatedAt.2.1 [aliceUser] "u1"
    { displayName := some "Alice B", bio := none, avatar := none } 9
    (excludePassword { aliceUser with displayName := "Alice B", updatedAt := 9 })
    ((updateProfile [aliceUser] "u1"
        { displayName := some "Alice B", bio := none, avatar := none } 9).2) rfl

/-- C6: with well-formed register input, an email already in the store
fails EMAIL_EXISTS no matter whether the username is novel; the email
check precedes the username check, so USERNAME_EXISTS arises only when
the email is fresh and the username is taken; both failures leave the
store unchanged. -/
theorem C6_register_email_checked_first (db : Db) (data : RegisterData)
    (newId : String) (salt now : Nat) (hparse : registerParse data = .ok data) :
    (∀ u, findByEmail db data.email = some u →
      register db data newId salt now =
        (.error (.auth { message := "该邮箱已被注册", code := "EMAIL_EXISTS",
                         field := some "email" }), db)) ∧
    (findByEmail db data.email = none →
      ∀ u, findByUsername db data.username = some u →
      register db data newId salt now =
        (.error (.auth { message := "该用户名已被使用", code := "USERNAME_EXISTS",
                         field := some "username" }), db)) ∧
    (∀ e db', register db data newId salt now = (.error (.auth e), db') →
      e.code = "USERNAME_EXISTS" → findByEmail db data.email = none) := by
  refine ⟨?_, ?_, ?_⟩
  · intro u he
    simp only [register, hparse, he]
  · intro he u hu
    simp only [register, hparse, he, hu]
  · intro e db' h hcode
    simp only [register, hparse] at h
    split at h
    · rename_i u0 he
      simp only [Prod.mk.injEq, Except.error.injEq, ServiceError.auth.injEq] at h
      obtain ⟨h1, h2⟩ := h
      rw [← h1] at hcode
      simp at hcode
    · rename_i he
      exact he

/-- Witness for C6: registering with alice's email and a fresh username
fails EMAIL_EXISTS; registering with a fresh email and alice's username
fails USERNAME_EXISTS. -/
theorem C6_register_email_checked_first_witness :
    register [aliceUser]
      { email := "a@x.com", username := "newname", displayName := "New",
        password := "longenough", agreeToTerms := true } "u2" 1 7 =
      (.error (.auth { message := "该邮箱已被注册", code := "EMAIL_EXISTS",
                       field := some "email" }), [aliceUser]) ∧
    register [aliceUser]
      { email := "b@x.com", username := "alice", displayName := "New",
        password := "longenough", agreeToTerms := true } "u2" 1 7 =
      (.error (.auth { message := "该用户名已被使用", code := "USERNAME_EXISTS",
                       field := some "username" }), [aliceUser]) :=
  ⟨(C6_register_email_checked_first [aliceUser]
      { email := "a@x.com", username := "newname", displayName := "New",
        password := "longenough", agreeToTerms := true } "u2" 1 7 rfl).1 aliceUser rfl,
   (C6_register_email_checked_first [aliceUser]
      { email := "b@x.com", username := "alice", displayName := "New",
        password := "longenough", agreeToTerms := true } "u2" 1 7 rfl).2.1 rfl
      aliceUser rfl⟩

/-- Witness for C2 at a concrete input: the account getCurrentUser
returns for alice is the credential-stripped form of a stored record. -/
theorem C2_credential_stripped_witness :
    ∃ u, u ∈ [aliceUser] ∧ excludePassword aliceUser = excludePassword u :=
  C2_credential_stripped.2.2.1 [aliceUser] "u1" (excludePassword aliceUser) rfl

/-- C8: the mandatory Access Gate fails 401 NO_TOKEN when no bearer
credential is extracted; it fails 401 INVALID_TOKEN when the extracted
token fails verification (an expired token included); with a token that
verifies it attaches the Call Identity, and the role gate then fails 403
INSUFFICIENT_PERMISSIONS when that identity's role is outside the
required set; the role gate fails 401 NOT_AUTHENTICATED when no Call
Identity is attached. -/
theorem C8_access_gate_failures (now : Nat) :
    (∀ header, extractToken header = none →
      authenticateToken header now = .respond 401 "NO_TOKEN" "请提供认证token") ∧
    (∀ tok e, verifyToken tok now = .error e →
      authenticateToken (some (.bearer tok)) now =
        .respond 401 "INVALID_TOKEN" "Token无效或已过期") ∧
    (∀ tok p roles, verifyToken tok now = .ok p → roles.contains p.role = false →
      authenticateToken (some (.bearer tok)) now =
        .next (some { userId := p.userId, email := p.email, role := p.role }) ∧
      requireRole roles (some { userId := p.userId, email := p.email, role := p.role }) =
        .respond 403 "INSUFFICIENT_PERMISSIONS" "权限不足") ∧
    (∀ roles, requireRole roles none = .respond 401 "NOT_AUTHENTICATED" "请先登录") := by
  refine ⟨?_, ?_, ?_, ?_⟩
  · intro header he
    simp only [authenticateToken, he]
  · intro tok e hv
    have he2 : e = invalidTokenError := by
      unfold verifyToken at hv
      split at hv
      · simp at hv
      · injection hv with h1
        exact h1.symm
    simp only [authenticateToken, extractToken, hv, he2, invalidTokenError]
  · intro tok p roles hv hrole
    constructor
    · simp only [authenticateToken, extractToken, hv]
    · simp only [requireRole, hrole]
      simp
  · intro roles
    simp only [requireRole]

/-- Witness for C8 at concrete inputs: a missing header, an expired but
otherwise perfect token, a valid standard-role token against the
admin-only gate, and a bare role gate. -/
theorem C8_access_gate_failures_witness :
    authenticateToken none 5 = .respond 401 "NO_TOKEN" "请提供认证token" ∧
    authenticateToken (some (.bearer (.wellFormed
      { claims := { userId := "u1", email := "a@x.com", role := .USER, iat := 0,
                    exp := 3, iss := some "blog-backend", aud := some "blog-frontend" }
        signedWith := JWT_SECRET }))) 5 =
      .respond 401 "INVALID_TOKEN" "Token无效或已过期" ∧
    requireRole [.ADMIN] (some { userId := "u1", email := "a@x.com", role := UserRole.USER }) =
      .respond 403 "INSUFFICIENT_PERMISSIONS" "权限不足" ∧
    requireRole [.ADMIN] none = .respond 401 "NOT_AUTHENTICATED" "请先登录" :=
  ⟨(C8_access_gate_failures 5).1 none rfl,
   (C8_access_gate_failures 5).2.1 (.wellFormed
      { claims := { userId := "u1", email := "a@x.com", role := .USER, iat := 0,
                    exp := 3, iss := some "blog-backend", aud := some "blog-frontend" }
        signedWith := JWT_SECRET }) invalidTokenError rfl,
   ((C8_access_gate_failures 5).2.2.1 (.wellFormed
      { claims := { userId := "u1", email := "a@x.com", role := .USER, iat := 0,
                    exp := 99, iss := some "blog-backend", aud := some "blog-frontend" }
        signedWith := JWT_SECRET })
      { userId := "u1", email := "a@x.com", role := .USER } [.ADMIN] rfl rfl).2,
   (C8_access_gate_failures 5).2.2.2 [.ADMIN]⟩

/-- Inversion for updateProfileParse: a successful parse returns its
input unchanged. -/
theorem updateProfileParse_ok {d v : UpdateProfileData}
    (h : updateProfileParse d = .ok v) : v = d := by
  unfold updateProfileParse at h
  split at h
  · injection h with h1
    exact h1.symm
  · simp at h

/-- C9: a successful updateProfile writes exactly the supplied optional
fields: the rewritten record takes the supplied value of every supplied
field among displayName, bio and avatar, keeps the prior value of every
unsupplied one, and its email, username, role and credential are
unchanged by the operation. -/
theorem C9_updateProfile_frame (db : Db) (userId : String)
    (data : UpdateProfileData) (now : Nat) (pu : PublicUser) (db' : Db)
    (h : updateProfile db userId data now = (.ok pu, db')) :
    ∃ u u', findById db userId = some u ∧ u' ∈ db' ∧ pu = excludePassword u' ∧
      u'.email = u.email ∧ u'.username = u.username ∧ u'.role = u.role ∧
      u'.passwordHash = u.passwordHash ∧
      (∀ s, data.displayName = some s → u'.displayName = s) ∧
      (data.displayName = none → u'.displayName = u.displayName) ∧
      (∀ s, data.bio = some s → u'.bio = some s) ∧
      (data.bio = none → u'.bio = u.bio) ∧
      (∀ s, data.avatar = some s → u'.avatar = some s) ∧
      (data.avatar = none → u'.avatar = u.avatar) := by
  unfold updateProfile at h
  split at h
  · simp at h
  · rename_i v hparse
    have hv : v = data := updateProfileParse_ok hparse
    subst hv
    split at h
    · simp at h
    · rename_i uu db'' hupd
      simp only [Prod.mk.injEq, Except.ok.injEq] at h
      obtain ⟨h1, h2⟩ := h
      obtain ⟨u0, hf, hfu, hmem⟩ := updateById_some hupd
      subst hfu
      refine ⟨u0, _, hf, h2 ▸ hmem, h1.symm, rfl, rfl, rfl, rfl, ?_, ?_, ?_, ?_, ?_, ?_⟩
      · intro s hs
        simp [applyProfileUpdate, hs]
      · intro hs
        simp [applyProfileUpdate, hs]
      · intro s hs
        simp [applyProfileUpdate, hs]
      · intro hs
        simp [applyProfileUpdate, hs]
      · intro s hs
        simp [applyProfileUpdate, hs]
      · intro hs
        simp [applyProfileUpdate, hs]

/-- Witness for C9 at a concrete input: updating only alice's display
name keeps her email, credential and bio. -/
theorem C9_updateProfile_frame_witness :
    ∃ u u', findById [aliceUser] "u1" = some u ∧
      u' ∈ [{ aliceUser with displayName := "Bob", updatedAt := 9 }] ∧
      u'.email = u.email ∧ u'.passwordHash = u.passwordHash ∧
      u'.displayName = "Bob" ∧ u'.bio = u.bio := by
  obtain ⟨u, u', h1, h2, h3, h4, h5, h6, h7, h8, h9, h10, h11, h12, h13⟩ :=
    C9_updateProfile_frame [aliceUser] "u1"
      { displayName := some "Bob", bio := none, avatar := none } 9
      (excludePassword { aliceUser with displayName := "Bob", updatedAt := 9 })
      [{ aliceUser with displayName := "Bob", updatedAt := 9 }] rfl
  exact ⟨u, u', h1, h2, h4, h7, h8 "Bob" rfl, h11 rfl⟩

/-- C10: a register input with agreeToTerms not true, or a username
shorter than 3 or longer than 20 characters or containing a character
outside letters, digits and underscore, or a password shorter than 6 or
longer than 100 characters, fails with a validation error before any
persistence operation is attempted, leaving the store unchanged. -/
theorem C10_register_validation_guards (db : Db) (data : RegisterData)
    (newId : String) (salt now : Nat)
    (h : data.agreeToTerms = false ∨
      data.username.length < 3 ∨ 20 < data.username.length ∨
      data.username.toList.all isUsernameChar = false ∨
      data.password.length < 6 ∨ 100 < data.password.length) :
    ∃ issues, issues ≠ [] ∧
      register db data newId salt now = (.error (.validation issues), db) := by
  have hne : registerIssues data ≠ [] := by
    intro hnil
    unfold registerIssues at hnil
    simp only [List.append_eq_nil] at hnil
    obtain ⟨⟨⟨⟨⟨⟨⟨⟨he, hu1⟩, hu2⟩, hu3⟩, hd1⟩, hd2⟩, hp1⟩, hp2⟩, hagree⟩ := hnil
    rcases h with h | h | h | h | h | h
    · simp [h] at hagree
    · simp [h] at hu1
    · simp [h] at hu2
    · rw [h] at hu3
      simp at hu3
    · simp [h] at hp1
    · simp [h] at hp2
  cases hiss : registerIssues data with
  | nil => exact absurd hiss hne
  | cons i rest =>
    refine ⟨i :: rest, by simp, ?_⟩
    simp only [register, registerParse, hiss]

/-- Witness for C10 at a concrete input: a registration that does not
agree to the terms fails validation and leaves the store unchanged. -/
theorem C10_register_validation_guards_witness :
    ∃ issues, issues ≠ [] ∧
      register []
        { email := "a@x.com", username := "alice", displayName := "Alice",
          password := "longenough", agreeToTerms := false } "u9" 0 0 =
        (.error (.validation issues), []) :=
  C10_register_validation_guards []
    { email := "a@x.com", username := "alice", displayName := "Alice",
      password := "longenough", agreeToTerms := false } "u9" 0 0 (Or.inl rfl)

/-- Inversion for changePasswordParse: a successful parse returns its
input and certifies that no check raised an issue. -/
theorem changePasswordParse_ok {d v : ChangePasswordData}
    (h : changePasswordParse d = .ok v) : v = d ∧ changePasswordIssues d = [] := by
  unfold changePasswordParse at h
  split at h
  · rename_i hnil
    injection h with h1
    exact ⟨h1.symm, hnil⟩
  · simp at h

/-- Length bounds certified by an issue-free changePassword input. -/
theorem changePasswordIssues_nil {d : ChangePasswordData}
    (h : changePasswordIssues d = []) :
    ¬ d.oldPassword.length < 1 ∧ ¬ d.newPassword.length < 6 ∧
      ¬ d.newPassword.length > 100 := by
  unfold changePasswordIssues at h
  simp only [List.append_eq_nil] at h
  obtain ⟨⟨h1, h2⟩, h3⟩ := h
  refine ⟨?_, ?_, ?_⟩
  · intro hc
    rw [if_pos hc] at h1
    simp at h1
  · intro hc
    rw [if_pos hc] at h2
    simp at h2
  · intro hc
    rw [if_pos hc] at h3
    simp at h3

/-- loginSchema accepts any input with a well-formed email and a
nonempty password. -/
theorem loginParse_ok_of (d : LoginData) (hfmt : isEmailFormat d.email = true)
    (hlen : 1 ≤ d.password.length) : loginParse d = .ok d := by
  have hiss : loginIssues d = [] := by
    unfold loginIssues
    rw [if_pos hfmt, if_neg (Nat.not_lt.mpr hlen)]
    rfl
  unfold loginParse
  rw [hiss]

/-- prisma.user.update succeeds whenever the keyed record resolves. -/
theorem prismaUserUpdate_of_findById {db : Db} {id : String} {u : User}
    (f : User → User) (now : Nat) (h : findById db id = some u) :
    ∃ u' db', prismaUserUpdate db id f now = some (u', db') := by
  unfold prismaUserUpdate
  obtain ⟨db', h'⟩ := updateById_of_findById (fun u0 => { f u0 with updatedAt := now }) h
  exact ⟨_, db', h'⟩

/-- Shape of a successful prisma.user.update: the rewritten record is
the keyed record passed through the update data with the stamped
updated-at, and it lies in the resulting store. -/
theorem prismaUserUpdate_some {db : Db} {id : String} {f : User → User} {now : Nat}
    {u' : User} {db' : Db} (h : prismaUserUpdate db id f now = some (u', db')) :
    ∃ u, findById db id = some u ∧ u' = { f u with updatedAt := now } ∧ u' ∈ db' := by
  unfold prismaUserUpdate at h
  obtain ⟨u, h1, h2, h3⟩ := updateById_some h
  exact ⟨u, h1, h2, h3⟩

/-- An update that preserves the keyed record's email leaves it the
first match for its email in the resulting store. -/
theorem findByEmail_prismaUserUpdate {db : Db} {id e : String} {u u' : User}
    {db' : Db} {f : User → User} {now : Nat} (hid : findById db id = some u)
    (hem : findByEmail db e = some u)
    (hupd : prismaUserUpdate db id f now = some (u', db'))
    (hpres : (f u).email = u.email) : findByEmail db' e = some u' := by
  unfold prismaUserUpdate at hupd
  exact findByEmail_updateById hid hem hupd (by exact hpres)

/-- Counterexample to C7 as stated: quantifying over every pair of old
and new passwords includes the pair where they are equal; there, after a
successful changePassword with the correct old password, a login with
the old password still succeeds rather than failing
INVALID_CREDENTIALS. -/
theorem C7_counterexample_same_password :
    (changePassword [aliceUser] "u1"
        { oldPassword := "secret1", newPassword := "secret1" } 1 10).1 = .ok () ∧
    (login (changePassword [aliceUser] "u1"
        { oldPassword := "secret1", newPassword := "secret1" } 1 10).2
      { email := "a@x.com", password := "secret1", rememberMe := none } 20).1 ≠
      .error (.auth invalidCredentialsError) := by
  constructor
  · rfl
  · decide

/-- C7 (amended): for an account whose stored record is the first match
for both its id and its email, changePassword with the correct old
password and a new password DIFFERENT from the old succeeds, after
which login with the new password succeeds and login with the old
password fails INVALID_CREDENTIALS.  (The claim as stated fails when
the new password equals the old; see the counterexample.) -/
theorem C7_changePassword_then_login (db : Db) (userId : String) (u : User)
    (chdata : ChangePasswordData) (salt now now₁ now₂ : Nat)
    (hfind : findById db userId = some u)
    (hmail : findByEmail db u.email = some u)
    (hfmt : isEmailFormat u.email = true)
    (hparse : changePasswordParse chdata = .ok chdata)
    (hold : verifyPassword chdata.oldPassword u.passwordHash = true)
    (hne : chdata.oldPassword ≠ chdata.newPassword) :
    ∃ db₁, changePassword db userId chdata salt now = (.ok (), db₁) ∧
      (∃ r db₂, login db₁
        { email := u.email, password := chdata.newPassword, rememberMe := none }
        now₁ = (.ok r, db₂)) ∧
      login db₁
        { email := u.email, password := chdata.oldPassword, rememberMe := none }
        now₂ = (.error (.auth invalidCredentialsError), db₁) := by
  obtain ⟨hveq, hiss⟩ := changePasswordParse_ok hparse
  obtain ⟨hno1, hno6, hno100⟩ := changePasswordIssues_nil hiss
  obtain ⟨uu, db₁, hupd⟩ := prismaUserUpdate_of_findById
    (fun u0 => { u0 with passwordHash := hashPassword chdata.newPassword salt }) now hfind
  obtain ⟨u0, hf0, hfu, hmem⟩ := prismaUserUpdate_some hupd
  have hu0 : u0 = u := by
    rw [hfind] at hf0
    injection hf0 with h
    exact h.symm
  subst hu0
  have hpw_uu : uu.passwordHash = hashPassword chdata.newPassword salt := by rw [hfu]
  have hfbe : findByEmail db₁ u0.email = some uu :=
    findByEmail_prismaUserUpdate hf0 hmail hupd rfl
  refine ⟨db₁, ?_, ?_, ?_⟩
  · unfold changePassword
    simp only [hparse]
    simp only [hf0]
    rw [hold, if_pos rfl, hupd]
  · have h6 : 6 ≤ chdata.newPassword.length := Nat.not_lt.mp hno6
    have hparseNew := loginParse_ok_of
      { email := u0.email, password := chdata.newPassword, rememberMe := none } hfmt
      (le_trans (by norm_num) h6)
    have hpwNew : verifyPassword chdata.newPassword uu.passwordHash = true := by
      rw [hpw_uu]
      simp [verifyPassword, bcryptCompare, hashPassword, bcryptHash]
    have hs : (List.find? (fun x => x.id == uu.id) db₁).isSome := by
      rw [List.find?_isSome]
      exact ⟨uu, hmem, by simp⟩
    obtain ⟨w, hw⟩ := Option.isSome_iff_exists.mp hs
    obtain ⟨w', db₂, hupd2⟩ := prismaUserUpdate_of_findById
      (fun x => { x with lastLoginAt := some now₁ }) now₁ hw
    refine ⟨{ user := excludePassword w',
              token := generateToken { userId := uu.id, email := uu.email, role := uu.role } now₁ },
      db₂, ?_⟩
    unfold login
    simp only [hparseNew]
    simp only [hfbe]
    rw [hpwNew, if_pos rfl, hupd2]
  · have hparseOld := loginParse_ok_of
      { email := u0.email, password := chdata.oldPassword, rememberMe := none } hfmt
      (Nat.not_lt.mp hno1)
    have hpwOld : verifyPassword chdata.oldPassword uu.passwordHash = false := by
      rw [hpw_uu]
      simp [verifyPassword, bcryptCompare, hashPassword, bcryptHash]
      exact hne
    unfold login
    simp only [hparseOld]
    simp only [hfbe]
    rw [hpwOld, if_neg (by simp)]

/-- Witness for the amended C7 at a concrete input: changing alice's
password from secret1 to secret2, logging in with secret2 succeeds and
logging in with secret1 fails INVALID_CREDENTIALS. -/
theorem C7_changePassword_then_login_witness :
    ∃ db₁, changePassword [aliceUser] "u1"
        { oldPassword := "secret1", newPassword := "secret2" } 1 10 = (.ok (), db₁) ∧
      (∃ r db₂, login db₁
        { email := "a@x.com", password := "secret2", rememberMe := none }
        20 = (.ok r, db₂)) ∧
      login db₁
        { email := "a@x.com", password := "secret1", rememberMe := none }
        30 = (.error (.auth invalidCredentialsError), db₁) :=
  C7_changePassword_then_login [aliceUser] "u1" aliceUser
    { oldPassword := "secret1", newPassword := "secret2" } 1 10 20 30
    rfl rfl rfl rfl rfl (by decide)

end BlogBackend
